import Mathlib

/-!
# Facade Analytics Engine — shallow embedding and verification

Shallow embedding of `src/core/analytics.py`.  Python floats are idealised as
rationals (`ℚ`); quantities produced through the transcendental functions
(`np.deg2rad`, `np.sin`, `np.sqrt`) live in `ℝ`.  Python's builtin `round`
(and numpy's `round`) round half to even, which `rhe`/`pyRound` implement.
-/

namespace Facade

/-- Round to the nearest integer, ties to even (Python builtin `round`,
numpy `ndarray.round`). -/
def rhe {α : Type} [LinearOrderedField α] [FloorRing α] (x : α) : ℤ :=
  if x - ⌊x⌋ < 1 / 2 then ⌊x⌋
  else if 1 / 2 < x - ⌊x⌋ then ⌊x⌋ + 1
  else if ⌊x⌋ % 2 = 0 then ⌊x⌋ else ⌊x⌋ + 1

/-- Python `round(x, d)` with `d` decimal digits. -/
def pyRound {α : Type} [LinearOrderedField α] [FloorRing α] (d : ℕ) (x : α) : α :=
  (rhe (x * 10 ^ d) : α) / 10 ^ d

section RoundingLemmas

variable {α : Type} [LinearOrderedField α] [FloorRing α] (x y : α)

lemma floor_le_rhe : ⌊x⌋ ≤ rhe x := by
  unfold rhe; split_ifs <;> omega

lemma rhe_le_floor_add_one : rhe x ≤ ⌊x⌋ + 1 := by
  unfold rhe; split_ifs <;> omega

lemma abs_rhe_sub_le : |(rhe x : α) - x| ≤ 1 / 2 := by
  have h1 : (⌊x⌋ : α) ≤ x := Int.floor_le x
  have h2 : x < ⌊x⌋ + 1 := Int.lt_floor_add_one x
  unfold rhe
  split_ifs with hlt hgt heven <;> rw [abs_le] <;> constructor <;> push_cast <;> linarith

lemma rhe_nonneg (hx : 0 ≤ x) : 0 ≤ rhe x :=
  le_trans (Int.floor_nonneg.mpr hx) (floor_le_rhe x)

lemma rhe_mono (h : x ≤ y) : rhe x ≤ rhe y := by
  by_cases hf : ⌊x⌋ = ⌊y⌋
  · have hfc : ((⌊x⌋ : α)) = (⌊y⌋ : α) := by exact_mod_cast hf
    have hxy : x - (⌊x⌋ : α) ≤ y - (⌊y⌋ : α) := by linarith
    unfold rhe
    split_ifs <;> first | omega | (exfalso; push_neg at *; linarith)
  · have hlt : ⌊x⌋ < ⌊y⌋ := lt_of_le_of_ne (Int.floor_le_floor h) hf
    calc rhe x ≤ ⌊x⌋ + 1 := rhe_le_floor_add_one x
    _ ≤ ⌊y⌋ := by omega
    _ ≤ rhe y := floor_le_rhe y

lemma rhe_intCast (n : ℤ) : rhe (n : α) = n := by
  unfold rhe
  rw [Int.floor_intCast]
  simp

lemma pyRound_nonneg (d : ℕ) (hx : 0 ≤ x) : 0 ≤ pyRound d x := by
  unfold pyRound
  apply div_nonneg _ (by positivity)
  exact_mod_cast rhe_nonneg (x * 10 ^ d) (by positivity)

lemma pyRound_mono (d : ℕ) (h : x ≤ y) : pyRound d x ≤ pyRound d y := by
  unfold pyRound
  apply div_le_div_of_nonneg_right _ (by positivity)
  exact_mod_cast rhe_mono (x * 10 ^ d) (y * 10 ^ d)
    (mul_le_mul_of_nonneg_right h (by positivity))

lemma abs_pyRound_sub_le (d : ℕ) : |pyRound d x - x| ≤ 1 / (2 * 10 ^ d) := by
  unfold pyRound
  have hpow : (0 : α) < 10 ^ d := by positivity
  have h := abs_rhe_sub_le (x * 10 ^ d)
  have hrw : (rhe (x * 10 ^ d) : α) / 10 ^ d - x
      = ((rhe (x * 10 ^ d) : α) - x * 10 ^ d) / 10 ^ d := by
    rw [sub_div, mul_div_assoc, div_self (ne_of_gt hpow), mul_one]
  rw [hrw, abs_div, abs_of_pos hpow, div_le_div_iff₀ hpow (by positivity)]
  calc |(rhe (x * 10 ^ d) : α) - x * 10 ^ d| * (2 * 10 ^ d)
      ≤ (1 / 2) * (2 * 10 ^ d) := by
        apply mul_le_mul_of_nonneg_right h (by positivity)
    _ = 1 * 10 ^ d := by ring

/-- `pyRound` fixes every point of the `d`-decimal grid. -/
lemma pyRound_grid (d : ℕ) (n : ℤ) (h : x * 10 ^ d = (n : α)) : pyRound d x = x := by
  unfold pyRound
  rw [h, rhe_intCast, ← h]
  field_simp

lemma pyRound_le_of_le (d : ℕ) (n : ℤ) (b : α) (hb : b * 10 ^ d = (n : α))
    (h : x ≤ b) : pyRound d x ≤ b := by
  calc pyRound d x ≤ pyRound d b := pyRound_mono x b d h
  _ = b := pyRound_grid b d n hb

lemma le_pyRound_of_le (d : ℕ) (n : ℤ) (b : α) (hb : b * 10 ^ d = (n : α))
    (h : b ≤ x) : b ≤ pyRound d x := by
  calc b = pyRound d b := (pyRound_grid b d n hb).symm
  _ ≤ pyRound d x := pyRound_mono b x d h

end RoundingLemmas

/-- `DesignProfile` dataclass: parametric description of a curtain wall unit
profile (`src/core/analytics.py`, lines 16–35). -/
structure DesignProfile where
  id : String
  name : String
  module_width : ℚ
  module_height : ℚ
  module_depth : ℚ
  curvature_radius : ℚ
  tilt_angle : ℚ
  mullion_spacing : ℚ
  panel_thickness : ℚ
  wind_speed : ℚ
  thermal_gradient : ℚ
  material : String

/-- `MATERIAL_DENSITY` dict (lines 38–42); association list keyed by material. -/
def MATERIAL_DENSITY : List (String × ℚ) :=
  [("aluminum", 27), ("glass", 25), ("steel", 78.5)]

/-- One entry of `RULE_SET`: `{target, min, max, weight}` (lines 44–52). -/
structure Rule where
  target : ℚ
  min : ℚ
  max : ℚ
  weight : ℚ

/-- A `RULE_SET` key together with the `getattr` accessor it names. -/
structure RuleEntry where
  key : String
  value : DesignProfile → ℚ
  rule : Rule

/-- `RULE_SET` (lines 44–52), in the source's dict insertion order. -/
def RULE_SET : List RuleEntry :=
  [⟨"module_width", (·.module_width), ⟨1.2, 0.8, 1.8, 1.0⟩⟩,
   ⟨"module_height", (·.module_height), ⟨3.2, 2.4, 4.2, 1.2⟩⟩,
   ⟨"module_depth", (·.module_depth), ⟨0.26, 0.18, 0.35, 0.9⟩⟩,
   ⟨"curvature_radius", (·.curvature_radius), ⟨36.0, 8.0, 60.0, 1.1⟩⟩,
   ⟨"tilt_angle", (·.tilt_angle), ⟨4.5, -3.0, 9.0, 0.8⟩⟩,
   ⟨"mullion_spacing", (·.mullion_spacing), ⟨1.5, 1.0, 2.2, 0.7⟩⟩,
   ⟨"panel_thickness", (·.panel_thickness), ⟨0.022, 0.016, 0.032, 0.9⟩⟩]

/-- `build_profiles` (lines 55–101): the three reference sample profiles. -/
def build_profiles : List DesignProfile :=
  [⟨"DX-01", "Hyperbolic East Atrium", 1.25, 3.45, 0.24, 28.0, 3.5, 1.42, 0.021,
    34.0, 16.0, "aluminum"⟩,
   ⟨"DX-02", "North Tower Ribbon", 1.1, 3.0, 0.22, 45.0, 2.0, 1.5, 0.019,
    38.0, 12.0, "glass"⟩,
   ⟨"DX-03", "Skywalk Link Gallery", 1.35, 3.8, 0.27, 24.0, 5.2, 1.32, 0.024,
    42.0, 18.0, "steel"⟩]

/-- The DX-01 reference profile, the first element of `build_profiles`. -/
def DX01 : DesignProfile :=
  ⟨"DX-01", "Hyperbolic East Atrium", 1.25, 3.45, 0.24, 28.0, 3.5, 1.42, 0.021,
   34.0, 16.0, "aluminum"⟩

/-- Result record of `analyze_parameter_integrity`; `normalizedIndicators` is
the dict keyed by rule field, in insertion order. -/
structure Integrity where
  completenessScore : ℚ
  ruleMatchScore : ℚ
  normalizedIndicators : List (String × ℚ)
  missingParameters : List String
  notes : String

/-- The "satisfactory" notes message (line 130). -/
def noteSatisfactory : String :=
  "Parameter coverage satisfactory; proceed to geometry synthesis"

/-- The "review" notes message (line 132). -/
def noteReview : String :=
  "Review highlighted inputs to strengthen rule alignment"

/-- `analyze_parameter_integrity` (lines 104–134).  The dataclass typing makes
every ruled attribute a float, so `getattr(profile, key) is None` never holds
and `missing` is empty. -/
def analyze_parameter_integrity (p : DesignProfile) : Integrity :=
  let missing : List String := []
  let completeness := pyRound 2 ((1 - (missing.length : ℚ) / (RULE_SET.length : ℚ)) * 100)
  let gaps := RULE_SET.map (fun e =>
    let value := e.value p
    let diff := e.rule.max - e.rule.min
    let spread := if diff ≠ 0 then diff else if e.rule.target ≠ 0 then e.rule.target else 1
    let gap := |value - e.rule.target| / (spread / 2)
    (e.key, min gap 1.8, e.rule.weight))
  let penalty := (gaps.map (fun t => t.2.1 * t.2.2)).sum
  let indicators := gaps.map (fun t => (t.1, pyRound 2 (100 - t.2.1 * 55 * t.2.2)))
  let rule_match := pyRound 2 (max 0 (100 - penalty * 18))
  { completenessScore := completeness
    ruleMatchScore := rule_match
    normalizedIndicators := indicators
    missingParameters := missing
    notes := if completeness > 90 ∧ rule_match > 72 then noteSatisfactory else noteReview }

/-- `dynamicCoefficients` sub-record of the geometry result.
`tiltResponse` goes through `np.sin`, hence lives in `ℝ`. -/
structure DynamicCoefficients where
  curvatureInfluence : ℚ
  tiltResponse : ℝ
  mullionCoupling : ℚ
  thicknessRatio : ℚ

/-- Result record of `generate_unit_geometry`.  `pathWeights` involves
`|np.deg2rad(tilt_angle)|`, hence lives in `ℝ`. -/
structure Geometry where
  projectedArea : ℚ
  envelopeVolume : ℚ
  frameWeight : ℚ
  controlPoints : List (ℚ × ℚ)
  pathWeights : List ℝ
  dynamicCoefficients : DynamicCoefficients

/-- `generate_unit_geometry` (lines 137–179). -/
noncomputable def generate_unit_geometry (p : DesignProfile) : Geometry :=
  let area := p.module_width * p.module_height
  let envelope_volume := area * p.module_depth
  let curvature_factor : ℚ := 1 / max p.curvature_radius 1
  let tilt_factor : ℝ := (p.tilt_angle : ℝ) * Real.pi / 180
  let density : ℚ := ((MATERIAL_DENSITY.lookup p.material).getD 30)
  let frame_weight := pyRound 2 (envelope_volume * density * 0.85)
  let path_weights_raw : List ℝ :=
    [((area : ℚ) : ℝ),
     ((envelope_volume * (1 + curvature_factor * 12) : ℚ) : ℝ),
     ((frame_weight : ℚ) : ℝ) * (0.5 + |tilt_factor|),
     ((p.panel_thickness * 10 : ℚ) : ℝ)]
  let s := path_weights_raw.sum
  { projectedArea := pyRound 3 area
    envelopeVolume := pyRound 3 envelope_volume
    frameWeight := frame_weight
    controlPoints :=
      [(0, 0),
       (p.module_width * 0.4, p.module_height * 0.18),
       (p.module_width * 0.65, p.module_height * 0.55),
       (p.module_width, p.module_height)]
    pathWeights := path_weights_raw.map (fun w => pyRound 3 (w / s))
    dynamicCoefficients :=
      { curvatureInfluence := pyRound 2 (curvature_factor * 120)
        tiltResponse := pyRound 2 (Real.sin tilt_factor * 45)
        mullionCoupling := pyRound 3 (p.mullion_spacing / p.module_width)
        thicknessRatio := pyRound 3 (p.panel_thickness / p.module_depth) } }

/-- One record of `stressDistribution`; the stress values go through
`np.sqrt`, hence live in `ℝ`. -/
structure StressRecord where
  node : ℕ
  elevation : ℚ
  baseline : ℝ
  generated : ℝ
  optimized : ℝ

/-- Result record of `run_structural_verification`. -/
structure Structural where
  windPressure : ℚ
  deadLoad : ℚ
  stabilityIndex : ℝ
  stressDistribution : List StressRecord

/-- `run_structural_verification` (lines 182–221).  `np.linspace(0, h, 7)`
places node `idx` at `h * idx / 6`. -/
noncomputable def run_structural_verification (p : DesignProfile) (g : Geometry) : Structural :=
  let exposure_factor := 0.5 + p.module_height / 12
  let wind_pressure := 0.613 * p.wind_speed ^ 2 * exposure_factor / 1000
  let dead_load := g.frameWeight * 0.0098
  let baseline_stress : ℝ := Real.sqrt (((wind_pressure : ℚ) : ℝ) ^ 2 + ((dead_load : ℚ) : ℝ) ^ 2)
  let records := (List.range 7).map (fun (idx : ℕ) =>
    let elevation : ℚ := p.module_height * (idx : ℚ) / 6
    let gradient_factor : ℚ := 1 + ((idx : ℚ) / 6) * 0.32
    let generated : ℝ := baseline_stress * ((gradient_factor : ℚ) : ℝ) *
      (1 + ((g.dynamicCoefficients.curvatureInfluence : ℚ) : ℝ) / 400)
    let optimized : ℝ := generated * (0.92 - (idx : ℝ) * 0.015)
    { node := idx + 1
      elevation := pyRound 2 elevation
      baseline := pyRound 3 (baseline_stress * ((gradient_factor : ℚ) : ℝ))
      generated := pyRound 3 generated
      optimized := pyRound 3 optimized })
  let stability_index : ℝ :=
    pyRound 2 (100 - ((records.map (fun r => |r.generated - r.optimized|)).sum / 7) * 38)
  { windPressure := pyRound 3 wind_pressure
    deadLoad := pyRound 3 dead_load
    stabilityIndex := max 0 (min 100 stability_index)
    stressDistribution := records }

/-- One record of `corrections.iterations`; `shapeOffsetDeg` and
`pathReweight` derive from `ℝ`-valued geometry fields. -/
structure CorrectionIteration where
  iteration : ℕ
  deviationMm : ℚ
  shapeOffsetDeg : ℝ
  pathReweight : ℝ

/-- Result record of `compute_error_correction`. -/
structure Corrections where
  iterations : List CorrectionIteration
  residualDeviation : ℚ
  assemblySuitability : ℚ

/-- The per-iteration reduction factor `0.72 - idx * 0.12` (line 233). -/
def reductionFactor (idx : ℕ) : ℚ := 0.72 - (idx : ℚ) * 0.12

/-- `compute_error_correction` (lines 224–253).  `iterations[-1]` is modelled
by `getLast?` (the list is never empty, so the `getD` default is dead). -/
noncomputable def compute_error_correction (p : DesignProfile) (g : Geometry) : Corrections :=
  let base_deviation := g.dynamicCoefficients.curvatureInfluence * 0.18
  let thermal_effect := p.thermal_gradient * 0.014
  let drift := base_deviation + thermal_effect
  let iterations := (List.range 5).map (fun (idx : ℕ) =>
    let rf := reductionFactor idx
    ({ iteration := idx + 1
       deviationMm := pyRound 3 (drift * rf)
       shapeOffsetDeg := pyRound 3 (g.dynamicCoefficients.tiltResponse * ((rf : ℚ) : ℝ))
       pathReweight := pyRound 3 (g.pathWeights.getD (idx % g.pathWeights.length) 0)
       } : CorrectionIteration))
  let last_dev := ((iterations.getLast?).map (fun it => it.deviationMm)).getD 0
  let residual := max 0 (last_dev * 0.45)
  let suitability := pyRound 2 (100 - residual * 12)
  { iterations := iterations
    residualDeviation := pyRound 3 residual
    assemblySuitability := max 0 (min 100 suitability) }

/-- One record of `association.correlations`. -/
structure CorrelationRecord where
  stage : String
  correlation : ℚ

/-- One record of `association.linkageTable`. -/
structure LinkageRecord where
  stage : String
  designParam : ℚ
  fieldValue : ℚ
  syncLag : ℤ

/-- Result record of `build_data_association`. -/
structure Association where
  correlations : List CorrelationRecord
  linkageTable : List LinkageRecord

/-- The fixed five-stage timeline (line 259). -/
def timeline : List String :=
  ["Concept", "Design Freeze", "Mockup", "Fabrication", "Installation"]

/-- `build_data_association` (lines 256–279). -/
def build_data_association (p : DesignProfile) (c : Corrections) : Association :=
  let base := 0.68 + c.assemblySuitability / 250
  { correlations := timeline.enum.map (fun t =>
      let attenuation : ℚ := 1 - (t.1 : ℚ) * 0.06
      let correlation := max 0.4 (min 0.98 (base * attenuation + 0.05 * (t.1 : ℚ)))
      { stage := t.2, correlation := pyRound 3 correlation })
    linkageTable := timeline.enum.map (fun t =>
      { stage := t.2
        designParam := pyRound 3 (p.module_width * (1 + 0.015 * (t.1 : ℚ)))
        fieldValue := pyRound 3 (p.module_width * (1 + 0.01 * (t.1 : ℚ)))
        syncLag := max 0 ((5 - (t.1 : ℤ)) * 2) }) }

/-- The canonical dataset payload of `build_dataset`.  The `generatedAt`
wall-clock timestamp is outside the embedding (the claims exclude it). -/
structure Dataset where
  activeProfileId : String
  profiles : List DesignProfile
  integrity : Integrity
  geometry : Geometry
  structural : Structural
  corrections : Corrections
  association : Association

/-- `build_dataset` (lines 282–303).  A `none` argument falls back to
`build_profiles`; the `profiles_seq[0]` subscript raises an uncaught
`IndexError` on an empty sequence, modelled by the `none` result. -/
noncomputable def build_dataset (profilesOpt : Option (List DesignProfile)) : Option Dataset :=
  let profiles_seq := match profilesOpt with
    | some l => l
    | none => build_profiles
  match profiles_seq with
  | [] => none
  | active :: rest =>
    let integrity := analyze_parameter_integrity active
    let geometry := generate_unit_geometry active
    let structural := run_structural_verification active geometry
    let corrections := compute_error_correction active geometry
    let association := build_data_association active corrections
    some { activeProfileId := active.id
           profiles := active :: rest
           integrity := integrity
           geometry := geometry
           structural := structural
           corrections := corrections
           association := association }

/-! ## Claims -/

/-- C1 (counterexample): for the DX-01 reference profile, the `projectedArea`
returned by `generate_unit_geometry` is not `4.3125`: the raw area
`1.25 * 3.45 = 4.3125` is rounded to 3 decimals, and Python's half-to-even
rounding yields `4.312`. -/
theorem C1_counterexample : (generate_unit_geometry DX01).projectedArea ≠ 4.3125 := by
  norm_num [generate_unit_geometry, DX01, pyRound, rhe]

/-- C1 (amended): for the DX-01 reference profile returned by
`build_profiles`, `generate_unit_geometry` gives `projectedArea = 4.312`
(namely `round(4.3125, 3)` under round-half-to-even), `envelopeVolume =
1.035`, and `frameWeight = round(1.035 * 27.0 * 0.85, 2)`. -/
theorem C1_dx01_geometry_values :
    build_profiles.head? = some DX01 ∧
    (generate_unit_geometry DX01).projectedArea = 4.312 ∧
    (generate_unit_geometry DX01).envelopeVolume = 1.035 ∧
    (generate_unit_geometry DX01).frameWeight = pyRound 2 (1.035 * 27.0 * 0.85) := by
  refine ⟨rfl, ?_, ?_, ?_⟩ <;>
    norm_num [generate_unit_geometry, DX01, MATERIAL_DENSITY, List.lookup, pyRound, rhe]

/-- `(if c then A else B) = A` decides `c` whenever `A ≠ B`. -/
lemma ite_eq_left_iff_ne {c : Prop} [Decidable c] {A B : String} (hne : A ≠ B) :
    (if c then A else B) = A ↔ c := by
  split_ifs with hc
  · simp [hc]
  · exact iff_of_false (fun h => hne h.symm) hc

/-- C2 (counterexample): the per-field indicator stored by
`analyze_parameter_integrity` is not the exact `100 - gap * 55 * weight`:
for DX-01's `module_depth` the exact value is `1502/17 = 88.3529...`, while
the code stores it rounded to 2 decimals (`88.35`). -/
theorem C2_counterexample :
    (analyze_parameter_integrity DX01).normalizedIndicators.get? 2
      ≠ some ("module_depth",
          100 - min (|(0.24 : ℚ) - 0.26| / ((0.35 - 0.18) / 2)) 1.8 * 55 * 0.9) := by
  norm_num [analyze_parameter_integrity, RULE_SET, DX01, pyRound, rhe, min_def,
    abs_of_nonneg, abs_of_nonpos]
  norm_num [Int.fract]

/-- C2 (amended): for every `DesignProfile`, `analyze_parameter_integrity`
computes for each ruled field `gap = |value - target| / (spread / 2)` clamped
to at most `1.8` (`spread = max - min`), stores the per-field indicator
`round(100 - gap * 55 * weight, 2)` (unclamped below zero), stores
`ruleMatchScore = round(max(0, 100 - penalty * 18), 2)` with
`penalty = Σ gap * weight`, and returns the fixed "satisfactory" notes message
exactly when `completenessScore > 90` and `ruleMatchScore > 72`, otherwise the
fixed "review" message. -/
theorem C2_integrity_formulas (p : DesignProfile) :
    (analyze_parameter_integrity p).normalizedIndicators =
      RULE_SET.map (fun e =>
        (e.key, pyRound 2 (100 -
          min (|e.value p - e.rule.target| / ((e.rule.max - e.rule.min) / 2)) 1.8
            * 55 * e.rule.weight))) ∧
    (analyze_parameter_integrity p).ruleMatchScore =
      pyRound 2 (max 0 (100 -
        (RULE_SET.map (fun e =>
          min (|e.value p - e.rule.target| / ((e.rule.max - e.rule.min) / 2)) 1.8
            * e.rule.weight)).sum * 18)) ∧
    ((analyze_parameter_integrity p).notes = noteSatisfactory ↔
      (analyze_parameter_integrity p).completenessScore > 90 ∧
      (analyze_parameter_integrity p).ruleMatchScore > 72) := by
  refine ⟨?_, ?_, ?_⟩
  · norm_num [analyze_parameter_integrity, RULE_SET]
  · norm_num [analyze_parameter_integrity, RULE_SET]
  · have hne : noteSatisfactory ≠ noteReview := by decide
    simp only [analyze_parameter_integrity]
    exact ite_eq_left_iff_ne hne

/-- Counterexample profile for C3: DX-01 with a 12 mm module height (a
positive float, as the claim requires). -/
def PC3 : DesignProfile := { DX01 with module_height := 0.012 }

/-- C3 (counterexample): for `module_height = 0.012` the seven elevations
rounded to 2 decimals are `[0, 0, 0, 0.01, 0.01, 0.01, 0.01]` — neither
strictly increasing nor ending at `module_height`. -/
theorem C3_counterexample :
    ¬ (List.Pairwise (· < ·)
        ((run_structural_verification PC3 (generate_unit_geometry PC3)).stressDistribution.map
          (fun r => r.elevation)) ∧
      ((run_structural_verification PC3 (generate_unit_geometry PC3)).stressDistribution.map
          (fun r => r.elevation)).getLast? = some PC3.module_height) := by
  have h : (run_structural_verification PC3 (generate_unit_geometry PC3)).stressDistribution.map
      (fun r => r.elevation) = [0, 0, 0, 0.01, 0.01, 0.01, 0.01] := by
    simp only [run_structural_verification, List.map_map]
    norm_num [List.range_succ, PC3, DX01, pyRound, rhe]
    norm_num [Int.fract]
  rw [h]
  rintro ⟨hp, -⟩
  norm_num [List.pairwise_cons] at hp

/-- The amended C3 statement at a profile: 7 records, elevations (rounded to
2 decimals) nondecreasing from `0` to `round(module_height, 2)`, and the
unrounded node positions `module_height * i / 6` strictly increasing. -/
def stressElevationProp (p : DesignProfile) : Prop :=
  ((run_structural_verification p (generate_unit_geometry p)).stressDistribution.map
      (fun r => r.elevation)).length = 7 ∧
  List.Pairwise (· ≤ ·)
    ((run_structural_verification p (generate_unit_geometry p)).stressDistribution.map
      (fun r => r.elevation)) ∧
  ((run_structural_verification p (generate_unit_geometry p)).stressDistribution.map
      (fun r => r.elevation)).head? = some 0 ∧
  ((run_structural_verification p (generate_unit_geometry p)).stressDistribution.map
      (fun r => r.elevation)).getLast? = some (pyRound 2 p.module_height) ∧
  List.Pairwise (· < ·) ((List.range 7).map (fun (i : ℕ) => p.module_height * (i : ℚ) / 6))

/-- C3 (amended): for every `DesignProfile` with positive `module_height`,
`run_structural_verification` returns exactly 7 stress records whose
elevations (rounded to 2 decimals) are nondecreasing, starting at `0` and
ending at `round(module_height, 2)`; the unrounded `np.linspace` node
positions are strictly increasing. -/
theorem C3_stress_elevations (p : DesignProfile) (h : 0 < p.module_height) :
    stressElevationProp p := by
  have hmap : (run_structural_verification p (generate_unit_geometry p)).stressDistribution.map
      (fun r => r.elevation)
      = (List.range 7).map (fun (i : ℕ) => pyRound 2 (p.module_height * (i : ℚ) / 6)) := by
    simp only [run_structural_verification, List.map_map]
    rfl
  refine ⟨?_, ?_, ?_, ?_, ?_⟩
  · rw [hmap]; simp
  · rw [hmap, List.pairwise_map]
    refine List.Pairwise.imp ?_ (List.pairwise_lt_range 7)
    intro a b hab
    apply pyRound_mono _ _ 2
    apply div_le_div_of_nonneg_right _ (by norm_num)
    have hc : (a : ℚ) ≤ (b : ℚ) := by exact_mod_cast le_of_lt hab
    exact mul_le_mul_of_nonneg_left hc (le_of_lt h)
  · rw [hmap]
    norm_num [List.range_succ, pyRound, rhe]
  · rw [hmap]
    have h6 : (List.range 7).getLast? = some 6 := by decide
    rw [List.getLast?_map, h6]
    have harg : p.module_height * ((6 : ℕ) : ℚ) / 6 = p.module_height := by
      push_cast
      ring
    simp [harg]
  · rw [List.pairwise_map]
    refine List.Pairwise.imp ?_ (List.pairwise_lt_range 7)
    intro a b hab
    have hc : (a : ℚ) < (b : ℚ) := by exact_mod_cast hab
    rw [div_lt_div_iff_of_pos_right (by norm_num : (0 : ℚ) < 6)]
    exact mul_lt_mul_of_pos_left hc h

/-- Witness for C3 at the DX-01 reference profile. -/
theorem C3_stress_elevations_witness :
    0 < DX01.module_height ∧ stressElevationProp DX01 :=
  ⟨by norm_num [DX01], C3_stress_elevations DX01 (by norm_num [DX01])⟩

/-- Every density drawn from `MATERIAL_DENSITY` (or the default `30.0`) is
nonnegative. -/
lemma density_nonneg (m : String) : 0 ≤ ((MATERIAL_DENSITY.lookup m).getD 30 : ℚ) := by
  simp only [MATERIAL_DENSITY, List.lookup]
  cases h1 : (m == "aluminum") <;> simp only [h1]
  · cases h2 : (m == "glass") <;> simp only [h2]
    · cases h3 : (m == "steel") <;> simp only [h3] <;> norm_num
    · norm_num
  · norm_num

/-- Every `pyRound 3` value is a 3-decimal grid point. -/
lemma pyRound3_grid_mem (x : ℝ) : ∃ n : ℤ, pyRound 3 x = (n : ℝ) / 1000 :=
  ⟨rhe (x * 10 ^ 3), by unfold pyRound; norm_num⟩

/-- The C4 statement at a profile: `pathWeights` has 4 entries, each a
3-decimal grid point, and their sum is within `±0.005` of `1`. -/
def pathWeightsProp (p : DesignProfile) : Prop :=
  (generate_unit_geometry p).pathWeights.length = 4 ∧
  (∀ w ∈ (generate_unit_geometry p).pathWeights, ∃ n : ℤ, w = (n : ℝ) / 1000) ∧
  |(generate_unit_geometry p).pathWeights.sum - 1| ≤ 0.005

/-- C4: for every `DesignProfile` with positive width, height, depth,
curvature radius and panel thickness, the `pathWeights` list returned by
`generate_unit_geometry` has 4 entries rounded to 3 decimals whose sum lies
within `±0.005` of `1.0`. -/
theorem C4_path_weights (p : DesignProfile)
    (hw : 0 < p.module_width) (hh : 0 < p.module_height) (hd : 0 < p.module_depth)
    (hr : 0 < p.curvature_radius) (ht : 0 < p.panel_thickness) :
    pathWeightsProp p := by
  have hcf : (0 : ℚ) < 1 / max p.curvature_radius 1 :=
    div_pos one_pos (lt_of_lt_of_le one_pos (le_max_right _ _))
  have hfw : (0 : ℚ) ≤ pyRound 2 (p.module_width * p.module_height * p.module_depth *
      ((MATERIAL_DENSITY.lookup p.material).getD 30) * 0.85) := by
    apply pyRound_nonneg _ 2
    have := density_nonneg p.material
    positivity
  unfold pathWeightsProp generate_unit_geometry
  simp only [List.map, List.sum_cons, List.sum_nil, List.length_cons, List.length_nil, add_zero]
  set A : ℝ := ((p.module_width * p.module_height : ℚ) : ℝ) with hA
  set B : ℝ := ((p.module_width * p.module_height * p.module_depth *
      (1 + 1 / max p.curvature_radius 1 * 12) : ℚ) : ℝ) with hB
  set C : ℝ := ((pyRound 2 (p.module_width * p.module_height * p.module_depth *
      ((MATERIAL_DENSITY.lookup p.material).getD 30) * 0.85) : ℚ) : ℝ) *
      (0.5 + |(p.tilt_angle : ℝ) * Real.pi / 180|) with hC
  set D : ℝ := ((p.panel_thickness * 10 : ℚ) : ℝ) with hD
  have hApos : 0 < A := by rw [hA]; exact_mod_cast mul_pos hw hh
  have hBpos : 0 < B := by
    rw [hB]
    have : (0 : ℚ) < p.module_width * p.module_height * p.module_depth *
        (1 + 1 / max p.curvature_radius 1 * 12) := by positivity
    exact_mod_cast this
  have hCpos : 0 ≤ C := by
    rw [hC]
    apply mul_nonneg (by exact_mod_cast hfw)
    positivity
  have hDpos : 0 < D := by
    rw [hD]
    have : (0 : ℚ) < p.panel_thickness * 10 := by positivity
    exact_mod_cast this
  have hS : 0 < A + (B + (C + D)) := by linarith
  have hsum1 : A / (A + (B + (C + D))) + (B / (A + (B + (C + D))) +
      (C / (A + (B + (C + D))) + D / (A + (B + (C + D))))) = 1 := by
    field_simp
  obtain ⟨l1, r1⟩ := abs_le.mp (abs_pyRound_sub_le (A / (A + (B + (C + D)))) 3)
  obtain ⟨l2, r2⟩ := abs_le.mp (abs_pyRound_sub_le (B / (A + (B + (C + D)))) 3)
  obtain ⟨l3, r3⟩ := abs_le.mp (abs_pyRound_sub_le (C / (A + (B + (C + D)))) 3)
  obtain ⟨l4, r4⟩ := abs_le.mp (abs_pyRound_sub_le (D / (A + (B + (C + D)))) 3)
  have hden : (1 : ℝ) / (2 * 10 ^ 3) = 1 / 2000 := by norm_num
  rw [hden] at l1 r1 l2 r2 l3 r3 l4 r4
  refine ⟨by norm_num, ?_, ?_⟩
  · intro w hmem
    simp only [List.mem_cons, List.not_mem_nil, or_false] at hmem
    rcases hmem with h | h | h | h <;> rw [h] <;> exact pyRound3_grid_mem _
  · rw [abs_le]
    constructor <;> linarith

/-- Witness for C4 at the DX-01 reference profile. -/
theorem C4_path_weights_witness :
    0 < DX01.module_width ∧ 0 < DX01.module_height ∧ 0 < DX01.module_depth ∧
    0 < DX01.curvature_radius ∧ 0 < DX01.panel_thickness ∧ pathWeightsProp DX01 :=
  ⟨by norm_num [DX01], by norm_num [DX01], by norm_num [DX01], by norm_num [DX01],
   by norm_num [DX01],
   C4_path_weights DX01 (by norm_num [DX01]) (by norm_num [DX01]) (by norm_num [DX01])
     (by norm_num [DX01]) (by norm_num [DX01])⟩

/-- The C5 statement at a profile: exactly 5 iteration records; the reduction
factors `0.72 - i * 0.12` are strictly decreasing and all positive; the
`deviationMm` values are nonincreasing and never negative. -/
def correctionIterationsProp (p : DesignProfile) : Prop :=
  (compute_error_correction p (generate_unit_geometry p)).iterations.length = 5 ∧
  List.Pairwise (· > ·) ((List.range 5).map reductionFactor) ∧
  (∀ i ∈ List.range 5, 0 < reductionFactor i) ∧
  List.Pairwise (· ≥ ·)
    ((compute_error_correction p (generate_unit_geometry p)).iterations.map
      (fun it => it.deviationMm)) ∧
  (∀ it ∈ (compute_error_correction p (generate_unit_geometry p)).iterations,
    0 ≤ it.deviationMm)

/-- C5: for every `DesignProfile` with positive `curvature_radius` and
nonnegative `thermal_gradient`, `compute_error_correction` returns exactly 5
iteration records; the reduction factors are strictly decreasing and all
positive, the `deviationMm` magnitudes are nonincreasing over the fixed
5-iteration loop, and `deviationMm` never goes negative (rounding can make
consecutive magnitudes equal, so the shrinking is non-strict). -/
theorem C5_correction_iterations (p : DesignProfile)
    (hr : 0 < p.curvature_radius) (ht : 0 ≤ p.thermal_gradient) :
    correctionIterationsProp p := by
  have hcurv : (0 : ℚ) ≤ (generate_unit_geometry p).dynamicCoefficients.curvatureInfluence := by
    simp only [generate_unit_geometry]
    apply pyRound_nonneg _ 2
    have h1 : (0 : ℚ) < max p.curvature_radius 1 := lt_of_lt_of_le one_pos (le_max_right _ _)
    positivity
  have hdrift : (0 : ℚ) ≤
      (generate_unit_geometry p).dynamicCoefficients.curvatureInfluence * 0.18 +
        p.thermal_gradient * 0.014 := by
    have := mul_nonneg hcurv (by norm_num : (0 : ℚ) ≤ 0.18)
    have := mul_nonneg ht (by norm_num : (0 : ℚ) ≤ 0.014)
    linarith
  have hrf_nonneg : ∀ i ∈ List.range 5, (0 : ℚ) ≤ reductionFactor i := by
    intro i hi
    rw [List.mem_range] at hi
    interval_cases i <;> norm_num [reductionFactor]
  refine ⟨?_, ?_, ?_, ?_, ?_⟩
  · simp [compute_error_correction]
  · have hlist : (List.range 5).map reductionFactor = [0.72, 0.6, 0.48, 0.36, 0.24] := by
      norm_num [List.range_succ, reductionFactor]
    rw [hlist]
    norm_num [List.pairwise_cons]
  · intro i hi
    rw [List.mem_range] at hi
    interval_cases i <;> norm_num [reductionFactor]
  · have hmap : (compute_error_correction p (generate_unit_geometry p)).iterations.map
        (fun it => it.deviationMm)
        = (List.range 5).map (fun (idx : ℕ) =>
            pyRound 3 (((generate_unit_geometry p).dynamicCoefficients.curvatureInfluence * 0.18 +
              p.thermal_gradient * 0.014) * reductionFactor idx)) := by
      simp only [compute_error_correction, List.map_map]
      rfl
    rw [hmap, List.pairwise_map]
    refine List.Pairwise.imp ?_ (List.pairwise_lt_range 5)
    intro a b hab
    apply pyRound_mono _ _ 3
    apply mul_le_mul_of_nonneg_left _ hdrift
    have hc : (a : ℚ) ≤ (b : ℚ) := by exact_mod_cast le_of_lt hab
    unfold reductionFactor
    linarith
  · intro it hit
    simp only [compute_error_correction, List.mem_map] at hit
    obtain ⟨idx, hidx, rfl⟩ := hit
    apply pyRound_nonneg _ 3
    exact mul_nonneg hdrift (hrf_nonneg idx hidx)

/-- Witness for C5 at the DX-01 reference profile. -/
theorem C5_correction_iterations_witness :
    0 < DX01.curvature_radius ∧ 0 ≤ DX01.thermal_gradient ∧ correctionIterationsProp DX01 :=
  ⟨by norm_num [DX01], by norm_num [DX01],
   C5_correction_iterations DX01 (by norm_num [DX01]) (by norm_num [DX01])⟩

/-- Counterexample profile for C6: DX-01 with `curvature_radius = 120` and
`thermal_gradient = 17.2`. -/
def PR6 : DesignProfile := { DX01 with curvature_radius := 120, thermal_gradient := 17.2 }

/-- C6 (counterexample): `assemblySuitability` is computed from the unrounded
residual (`0.04545`), then rounded to 2 decimals: `99.45`; the claim's formula
uses the returned `residualDeviation` (`0.045`) and gives `99.46`. -/
theorem C6_counterexample :
    (compute_error_correction PR6 (generate_unit_geometry PR6)).assemblySuitability
      ≠ max 0 (min 100 (100 -
        (compute_error_correction PR6 (generate_unit_geometry PR6)).residualDeviation * 12)) := by
  have hgeom : (generate_unit_geometry PR6).dynamicCoefficients.curvatureInfluence = 1 := by
    norm_num [generate_unit_geometry, PR6, DX01, pyRound, rhe]
  have h1 : (compute_error_correction PR6 (generate_unit_geometry PR6)).assemblySuitability
      = 99.45 := by
    simp only [compute_error_correction, hgeom]
    norm_num [List.range_succ, PR6, DX01, reductionFactor, pyRound, rhe, min_def, max_def]
    try norm_num [Int.fract]
  have h2 : (compute_error_correction PR6 (generate_unit_geometry PR6)).residualDeviation
      = 0.045 := by
    simp only [compute_error_correction, hgeom]
    norm_num [List.range_succ, PR6, DX01, reductionFactor, pyRound, rhe, min_def, max_def]
    try norm_num [Int.fract]
  rw [h1, h2]
  norm_num [min_def, max_def]

/-- C6 (amended): for every `DesignProfile`, `stabilityIndex` and
`assemblySuitability` are clamped to `[0, 100]`;
`stabilityIndex = clamp(0, 100, round(100 - mean(|generated - optimized|) * 38, 2))`
over the 7 stress records, and
`assemblySuitability = clamp(0, 100, round(100 - residual * 12, 2))` where
`residual = max(0, last deviationMm * 0.45)` is used unrounded (the returned
`residualDeviation` field is its 3-decimal rounding). -/
theorem C6_clamped_scores (p : DesignProfile) :
    (0 ≤ (run_structural_verification p (generate_unit_geometry p)).stabilityIndex ∧
      (run_structural_verification p (generate_unit_geometry p)).stabilityIndex ≤ 100 ∧
      0 ≤ (compute_error_correction p (generate_unit_geometry p)).assemblySuitability ∧
      (compute_error_correction p (generate_unit_geometry p)).assemblySuitability ≤ 100) ∧
    (run_structural_verification p (generate_unit_geometry p)).stabilityIndex
      = max 0 (min 100 (pyRound 2 (100 -
          (((run_structural_verification p (generate_unit_geometry p)).stressDistribution.map
            (fun r => |r.generated - r.optimized|)).sum / 7) * 38))) ∧
    (compute_error_correction p (generate_unit_geometry p)).assemblySuitability
      = max 0 (min 100 (pyRound 2 (100 -
          max 0 (((((compute_error_correction p
            (generate_unit_geometry p)).iterations.getLast?).map
              (fun it => it.deviationMm)).getD 0) * 0.45) * 12))) := by
  refine ⟨⟨?_, ?_, ?_, ?_⟩, ?_, ?_⟩
  · simp only [run_structural_verification]
    exact le_max_left _ _
  · simp only [run_structural_verification]
    exact max_le (by norm_num) (min_le_left _ _)
  · simp only [compute_error_correction]
    exact le_max_left _ _
  · simp only [compute_error_correction]
    exact max_le (by norm_num) (min_le_left _ _)
  · simp only [run_structural_verification]
  · simp only [compute_error_correction]

/-- C7: a material outside `{aluminum, glass, steel}` silently uses density
`30.0` in the `frameWeight` computation, while the known materials map to
`27.0`, `25.0`, `78.5` respectively. -/
theorem C7_material_density :
    (∀ p : DesignProfile,
      p.material ≠ "aluminum" → p.material ≠ "glass" → p.material ≠ "steel" →
      (generate_unit_geometry p).frameWeight =
        pyRound 2 (p.module_width * p.module_height * p.module_depth * 30 * 0.85)) ∧
    MATERIAL_DENSITY.lookup "aluminum" = some 27 ∧
    MATERIAL_DENSITY.lookup "glass" = some 25 ∧
    MATERIAL_DENSITY.lookup "steel" = some 78.5 := by
  refine ⟨?_, rfl, rfl, rfl⟩
  intro p h1 h2 h3
  have e1 : (p.material == "aluminum") = false := beq_eq_false_iff_ne.mpr h1
  have e2 : (p.material == "glass") = false := beq_eq_false_iff_ne.mpr h2
  have e3 : (p.material == "steel") = false := beq_eq_false_iff_ne.mpr h3
  simp only [generate_unit_geometry, MATERIAL_DENSITY, List.lookup, e1, e2, e3]
  rfl

/-- Witness profile for C7: DX-01 with an unknown material. -/
def PT7 : DesignProfile := { DX01 with material := "titanium" }

/-- Witness for C7 at a profile with an unknown material. -/
theorem C7_material_density_witness :
    PT7.material ≠ "aluminum" ∧ PT7.material ≠ "glass" ∧ PT7.material ≠ "steel" ∧
    (generate_unit_geometry PT7).frameWeight =
      pyRound 2 (PT7.module_width * PT7.module_height * PT7.module_depth * 30 * 0.85) :=
  ⟨by decide, by decide, by decide,
   C7_material_density.1 PT7 (by decide) (by decide) (by decide)⟩

/-- C8: every stage function is deterministic — two invocations on equal
inputs produce equal outputs.  The embedding is a pure function of its
explicit arguments, mirroring the absence of clock, randomness or hidden
state in the five stage functions (only `build_dataset`'s `generatedAt`
timestamp varies, and it is outside the equality). -/
theorem C8_determinism :
    ∀ (p q : DesignProfile) (g1 g2 : Geometry) (c1 c2 : Corrections),
      p = q → g1 = g2 → c1 = c2 →
      analyze_parameter_integrity p = analyze_parameter_integrity q ∧
      generate_unit_geometry p = generate_unit_geometry q ∧
      run_structural_verification p g1 = run_structural_verification q g2 ∧
      compute_error_correction p g1 = compute_error_correction q g2 ∧
      build_data_association p c1 = build_data_association q c2 := by
  intro p q g1 g2 c1 c2 hp hg hc
  subst hp
  subst hg
  subst hc
  exact ⟨rfl, rfl, rfl, rfl, rfl⟩

/-- Witness for C8 at the DX-01 reference profile and its pipeline values. -/
theorem C8_determinism_witness :
    analyze_parameter_integrity DX01 = analyze_parameter_integrity DX01 ∧
    generate_unit_geometry DX01 = generate_unit_geometry DX01 ∧
    run_structural_verification DX01 (generate_unit_geometry DX01) =
      run_structural_verification DX01 (generate_unit_geometry DX01) ∧
    compute_error_correction DX01 (generate_unit_geometry DX01) =
      compute_error_correction DX01 (generate_unit_geometry DX01) ∧
    build_data_association DX01 (compute_error_correction DX01 (generate_unit_geometry DX01)) =
      build_data_association DX01 (compute_error_correction DX01 (generate_unit_geometry DX01)) :=
  C8_determinism DX01 DX01 (generate_unit_geometry DX01) (generate_unit_geometry DX01)
    (compute_error_correction DX01 (generate_unit_geometry DX01))
    (compute_error_correction DX01 (generate_unit_geometry DX01)) rfl rfl rfl

/-- Counterexample corrections record for C9: `assemblySuitability = 50`,
inside `[0, 100]`. -/
def CJ9 : Corrections := ⟨[], 0, 50⟩

/-- C9 (counterexample): with `assemblySuitability = 50`, stage index 1 gives
`base * 0.94 + 0.05 = 0.8772`, inside `[0.4, 0.98]`; the stored correlation is
its 3-decimal rounding `0.877`, not the exact clamp value. -/
theorem C9_counterexample :
    ((build_data_association DX01 CJ9).correlations.map (fun r => r.correlation)).get? 1
      ≠ some (max 0.4 (min 0.98
          ((0.68 + CJ9.assemblySuitability / 250) * (1 - 1 * 0.06) + 0.05 * 1))) := by
  norm_num [build_data_association, CJ9, timeline, List.enum, List.enumFrom,
    pyRound, rhe, min_def, max_def]
  try norm_num [Int.fract]

/-- The C9 statement (amended) at a profile and corrections record: each
stored correlation is `round(clamp(0.4, 0.98, base * (1 - i*0.06) + 0.05*i), 3)`
and lies in `[0.4, 0.98]`. -/
def correlationProp (p : DesignProfile) (c : Corrections) : Prop :=
  (build_data_association p c).correlations.map (fun r => r.correlation)
    = (List.range 5).map (fun (i : ℕ) =>
        pyRound 3 (max 0.4 (min 0.98
          ((0.68 + c.assemblySuitability / 250) * (1 - (i : ℚ) * 0.06) + 0.05 * (i : ℚ))))) ∧
  ∀ v ∈ (build_data_association p c).correlations.map (fun r => r.correlation),
    0.4 ≤ v ∧ v ≤ 0.98

/-- C9 (amended): for every `DesignProfile` and corrections record with
`assemblySuitability ∈ [0, 100]`, each of the 5 correlation values equals
`round(clamp(0.4, 0.98, base * (1 - i*0.06) + 0.05*i), 3)` with
`base = 0.68 + assemblySuitability / 250`, and hence lies in `[0.4, 0.98]`. -/
theorem C9_correlations (p : DesignProfile) (c : Corrections)
    (_h0 : 0 ≤ c.assemblySuitability) (_h100 : c.assemblySuitability ≤ 100) :
    correlationProp p c := by
  constructor
  · norm_num [correlationProp, build_data_association, timeline, List.enum, List.enumFrom,
      List.range_succ]
  · intro v hv
    simp only [build_data_association, timeline, List.enum, List.enumFrom, List.map,
      List.mem_cons, List.not_mem_nil, or_false] at hv
    have hlow : ∀ x : ℚ, 0.4 ≤ pyRound 3 (max 0.4 (min 0.98 x)) := fun x =>
      le_pyRound_of_le _ 3 400 0.4 (by norm_num) (le_max_left _ _)
    have hhigh : ∀ x : ℚ, pyRound 3 (max 0.4 (min 0.98 x)) ≤ 0.98 := fun x =>
      pyRound_le_of_le _ 3 980 0.98 (by norm_num)
        (max_le (by norm_num) (min_le_left _ _))
    rcases hv with h | h | h | h | h <;> rw [h] <;> exact ⟨hlow _, hhigh _⟩

/-- Witness for C9 at the DX-01 profile and the `CJ9` corrections record. -/
theorem C9_correlations_witness :
    0 ≤ CJ9.assemblySuitability ∧ CJ9.assemblySuitability ≤ 100 ∧ correlationProp DX01 CJ9 :=
  ⟨by norm_num [CJ9], by norm_num [CJ9],
   C9_correlations DX01 CJ9 (by norm_num [CJ9]) (by norm_num [CJ9])⟩

/-- C10: `build_dataset` falls back to the reference profiles only when its
argument is `none`; an empty list is an error (`none` result, modelling the
uncaught `IndexError` from `profiles_seq[0]`); for a non-empty list every
derived section is computed from the first profile only. -/
theorem C10_build_dataset :
    build_dataset (some []) = none ∧
    build_dataset none = build_dataset (some build_profiles) ∧
    ∀ (active : DesignProfile) (rest : List DesignProfile),
      build_dataset (some (active :: rest)) = some
        { activeProfileId := active.id
          profiles := active :: rest
          integrity := analyze_parameter_integrity active
          geometry := generate_unit_geometry active
          structural := run_structural_verification active (generate_unit_geometry active)
          corrections := compute_error_correction active (generate_unit_geometry active)
          association := build_data_association active
            (compute_error_correction active (generate_unit_geometry active)) } :=
  ⟨rfl, rfl, fun _ _ => rfl⟩

end Facade
